import Mathlib

/-!
Verification development for the MimicWX-Linux message bridge
(`src/adapter/MimicWX.js`).

The adapter is JavaScript; this file gives a shallow embedding of its
data model and operations:

* possibly-absent JS values (`undefined`/`null`) are `Option`s;
* JS string truthiness (`""` is falsy) is `jsTruthy`;
* `a || b` chains are `jsOr`/`jsOrD`;
* JS `Map` objects are association lists with `mapSet` (insert-or-replace,
  preserving insertion order, as `Map.set` does);
* network / filesystem effects are oracles passed in explicitly, with
  `Except String` modelling a thrown exception;
* the sends a compose call performs are reified as a trace (`List Send`),
  which serialises the `await` order of the source.
-/

/-- JS truthiness of a possibly-absent string: `undefined`/`null` and `""`
are falsy, every other string is truthy. -/
def jsTruthy : Option String → Bool
  | none => false
  | some s => !s.isEmpty

/-- JS `a || b` on possibly-absent strings. -/
def jsOr (a b : Option String) : Option String :=
  if jsTruthy a then a else b

/-- JS `a || d` where the last alternative is a present string literal. -/
def jsOrD (a : Option String) (d : String) : String :=
  match a with
  | some s => if s.isEmpty then d else s
  | none => d

/-- JS `n || d` on a possibly-absent number (`0` is falsy). -/
def jsOrInt (a : Option Int) (d : Int) : Int :=
  match a with
  | some n => if n = 0 then d else n
  | none => d

/-- JS `s.includes(pat)` (substring containment). -/
def jsIncludes (s pat : String) : Bool :=
  decide (pat.toList <:+: s.toList)

/-- JS `s.startsWith(pre)`. -/
def jsStartsWith (s pre : String) : Bool :=
  pre.toList.isPrefixOf s.toList

/-- The character set removed by JS `String.prototype.trim` (White_Space
code points). -/
def isJsWhitespace (c : Char) : Bool :=
  c = ' ' || c = '\t' || c = '\n' || c = '\r' || c.val = 0x0b || c.val = 0x0c ||
  c.val = 0xa0 || c.val = 0x1680 || (0x2000 ≤ c.val && c.val ≤ 0x200a) ||
  c.val = 0x2028 || c.val = 0x2029 || c.val = 0x202f || c.val = 0x205f ||
  c.val = 0x3000 || c.val = 0xfeff

/-- JS `s.trim()`: strip leading and trailing whitespace. -/
def jsTrim (s : String) : String :=
  String.mk (((s.toList.dropWhile isJsWhitespace).reverse.dropWhile
    isJsWhitespace).reverse)

/-- JS `Map.set`: replace the value when the key exists, else append
(insertion order preserved). -/
def mapSet {α : Type} (m : List (String × α)) (k : String) (v : α) :
    List (String × α) :=
  if m.any (fun p => p.1 = k) then
    m.map (fun p => if p.1 = k then (k, v) else p)
  else
    m ++ [(k, v)]

/-- JS `Map.has`. -/
def hasKey {α : Type} (m : List (String × α)) (k : String) : Bool :=
  m.any (fun p => p.1 = k)

/-!
## Inbound normalizer (`parseMsgContent`, MimicWX.js lines 37–65)

The backend `parsed` structure is `{ type: string?, data: {...}? }`; the
fields the switch reads off `data` are `text`, `duration_ms`, `title`,
`desc`.
-/

/-- Fields of `parsed.data` read by `parseMsgContent`. -/
structure ParsedData where
  text : Option String := none
  duration_ms : Option Int := none
  title : Option String := none
  desc : Option String := none
deriving Repr, DecidableEq

/-- The backend `parsed` payload: `{ type, data }`, each possibly absent. -/
structure Parsed where
  type : Option String := none
  data : Option ParsedData := none
deriving Repr, DecidableEq

/-- A Yunzai inbound segment `{ type, text }`; `text` may be `undefined`
(e.g. a `Text` payload with no parsed text and no raw fallback). -/
structure InSeg where
  type : String
  text : Option String
deriving Repr, DecidableEq

/-- Result of `parseMsgContent`: `{ segments, display }`. -/
structure ParseResult where
  segments : List InSeg
  display : Option String
deriving Repr, DecidableEq

/-- Every arm of the source switch returns one text segment whose text is
also the display string: `{ segments: [{type:"text", text: t}], display: t }`. -/
def mkSingle (t : Option String) : ParseResult :=
  { segments := [{ type := "text", text := t }], display := t }

/-- The `!parsed || !parsed.type` arm and the switch `default` arm:
`rawContent || ""`. -/
def parseFallbackRes (rawContent : Option String) : ParseResult :=
  mkSingle (some (jsOrD rawContent ""))

/-- `parseMsgContent(parsed, rawContent)` (MimicWX.js lines 37–65). -/
def parseMsgContent (parsed : Option Parsed) (rawContent : Option String) :
    ParseResult :=
  match parsed with
  | none => parseFallbackRes rawContent
  | some p =>
    match p.type with
    | none => parseFallbackRes rawContent
    | some ty =>
      if ty = "" then parseFallbackRes rawContent
      else if ty = "Text" then
        mkSingle (jsOr (p.data.bind ParsedData.text) rawContent)
      else if ty = "Image" then
        mkSingle (some "[图片]")
      else if ty = "Voice" then
        mkSingle (some (match p.data.bind ParsedData.duration_ms with
          | some ms =>
            if 1000 ≤ ms then s!"[语音 {ms / 1000}s]"
            else if 0 < ms then s!"[语音 {ms}ms]"
            else "[语音]"
          | none => "[语音]"))
      else if ty = "Video" then
        mkSingle (some "[视频]")
      else if ty = "Emoji" then
        mkSingle (some "[表情]")
      else if ty = "App" then
        let t := jsOrD (jsOr (p.data.bind ParsedData.title)
          (p.data.bind ParsedData.desc)) "链接"
        mkSingle (some s!"[链接] {t}")
      else if ty = "System" then
        mkSingle (jsOr (p.data.bind ParsedData.text) rawContent)
      else
        parseFallbackRes rawContent

/-- The `type` strings the switch recognizes. -/
def recognizedTypes : List String :=
  ["Text", "Image", "Voice", "Video", "Emoji", "App", "System"]

/-!
## Contact directory (`initBot`, MimicWX.js lines 136–162)
-/

/-- One entry of the `GET /contacts` response list. -/
structure Contact where
  username : Option String := none
  wxid : Option String := none
  display_name : Option String := none
  remark_name : Option String := none
deriving Repr, DecidableEq

/-- A friend-map (`fl`) value (the `bot_id` field is the constant
`self_id` and is omitted). -/
structure FriendInfo where
  user_id : Option String
  nickname : Option String
  user_name : Option String
  remark : Option String := none
deriving Repr, DecidableEq

/-- A group-map (`gl`) value. -/
structure GroupInfo where
  group_id : String
  group_name : Option String
deriving Repr, DecidableEq

/-- `const id = c.username || c.wxid || c.display_name` (line 149). -/
def contactId (c : Contact) : Option String :=
  jsOr (jsOr c.username c.wxid) c.display_name

/-- The `info` record built for each contact (lines 150–156). -/
def contactInfo (c : Contact) : FriendInfo :=
  { user_id := contactId c
    nickname := jsOr c.display_name c.username
    user_name := c.username
    remark := some (jsOrD c.remark_name "") }

/-- One iteration of the contact loop (lines 148–162): classify by the
`@chatroom` marker, skipping entries whose id is falsy. -/
def contactStep (acc : List (String × FriendInfo) × List (String × GroupInfo))
    (c : Contact) : List (String × FriendInfo) × List (String × GroupInfo) :=
  if jsTruthy (contactId c) && jsIncludes ((contactId c).getD "") "@chatroom" then
    (acc.1, mapSet acc.2 ((contactId c).getD "")
      { group_id := (contactId c).getD ""
        group_name := (contactInfo c).nickname })
  else if jsTruthy (contactId c) then
    (mapSet acc.1 ((contactId c).getD "") (contactInfo c), acc.2)
  else
    acc

/-- The friend/group maps built from the contact snapshot
(`fl`, `gl`; lines 146–162). -/
def buildContactMaps (contacts : List Contact) :
    List (String × FriendInfo) × List (String × GroupInfo) :=
  contacts.foldl contactStep ([], [])

/-!
## Inbound `db_message` handling (`onMessage`, MimicWX.js lines 203–263)
-/

/-- The fields of a `db_message` WebSocket frame the handler reads. -/
structure DbFrame where
  is_self : Bool := false
  chat : Option String := none
  talker : Option String := none
  chat_display : Option String := none
  talker_display : Option String := none
  content : Option String := none
  parsed : Option Parsed := none
  create_time : Option Int := none
  local_id : Option Int := none
deriving Repr, DecidableEq

/-- The mutable per-session directory state (`bot.fl` / `bot.gl`). -/
structure BotState where
  fl : List (String × FriendInfo)
  gl : List (String × GroupInfo)
deriving Repr, DecidableEq

/-- The event envelope `Bot.em` receives for a `db_message` frame. -/
structure HostEvent where
  name : String
  message_type : String
  user_id : Option String
  group_id : Option String
  group_name : Option String
  sender_nickname : Option String
  message : List InSeg
  raw_message : Option String
  time : Int
  message_id : String
deriving Repr, DecidableEq

/-- The directory update a non-self `db_message` frame performs
(lines 216–228). -/
def updateDirectory (bot : BotState) (d : DbFrame) : BotState :=
  let isGroup := jsTruthy d.chat && jsIncludes (d.chat.getD "") "@chatroom"
  let user_id := jsOr d.talker d.chat
  let group_id := if isGroup then d.chat else none
  let gRec : GroupInfo :=
    { group_id := group_id.getD "", group_name := d.chat_display }
  let fRec : FriendInfo :=
    { user_id := user_id
      nickname := some (jsOrD d.talker_display (user_id.getD ""))
      user_name := user_id }
  let b1 :=
    if isGroup && jsTruthy group_id && jsTruthy d.chat_display then
      { bot with gl := mapSet bot.gl (group_id.getD "") gRec }
    else bot
  if jsTruthy user_id && !jsIncludes (user_id.getD "") "@chatroom" then
    { b1 with fl := mapSet b1.fl (user_id.getD "") fRec }
  else b1

/-- The event envelope built for a non-self `db_message` frame
(lines 210–249). -/
def dbEvent (nowSec nowMs : Int) (d : DbFrame) : HostEvent :=
  let isGroup := jsTruthy d.chat && jsIncludes (d.chat.getD "") "@chatroom"
  let pr := parseMsgContent d.parsed d.content
  { name := if isGroup then "message.group" else "message.private"
    message_type := if isGroup then "group" else "private"
    user_id := jsOr d.talker d.chat
    group_id := if isGroup then d.chat else none
    group_name := if isGroup then d.chat_display else none
    sender_nickname := jsOr d.talker_display d.talker
    message := pr.segments
    raw_message := pr.display
    time := jsOrInt d.create_time nowSec
    message_id := "mimicwx_" ++ toString (jsOrInt d.local_id nowMs) }

/-- `onMessage` restricted to `db_message` frames (lines 203–263): returns
the updated directory and the list of host events emitted for the frame.
`nowSec`/`nowMs` stand for `Math.floor(Date.now()/1000)` and `Date.now()`. -/
def onDbMessage (connected : Bool) (bot : Option BotState)
    (nowSec nowMs : Int) (d : DbFrame) : Option BotState × List HostEvent :=
  if !connected then (bot, [])
  else if d.is_self then (bot, [])
  else
    (bot.map (fun b => updateDirectory b d), [dbEvent nowSec nowMs d])

/-!
## Outbound composer (`sendMsgSmart`, MimicWX.js lines 304–352)

The composer's effect is reified as a trace of backend send calls in
`await` order; a forward node's recursive sends happen during the segment
loop and therefore precede the enclosing call's own text/image sends.
-/

/-- A backend send call (`sendText` / `sendImage`).  Image files arriving
through segments are strings (URL / path / `base64://` data). -/
inductive Send where
  | text (dst : String) (payload : String)
  | image (dst : String) (file : String)
deriving Repr, DecidableEq

mutual
/-- A Yunzai message value passed to `sendMsgSmart`: a plain string, a
single segment object, or an array of strings/segments. -/
inductive MsgV where
  | str (s : String)
  | seg (g : Seg)
  | arr (items : List MsgItem)

/-- One element of a message array. -/
inductive MsgItem where
  | str (s : String)
  | seg (g : Seg)

/-- An outbound segment, discriminated by `seg.type`.  Fields read through
`||` chains are kept separately (`seg.text` next to `seg.data?.text`,
etc.).  `mention` is the source's `"at"` segment type; `other` is a
segment of any unlisted type and carries the string `Bot.String(seg)`
renders for it. -/
inductive Seg where
  | text (text : Option String) (dataText : Option String)
  | mention (qq : Option String) (dataQq : Option String)
  | image (file : Option String) (url : Option String)
      (dataFile : Option String) (dataUrl : Option String)
  | record
  | video
  | face
  | reply
  | button
  | node (data : Option (List NodeChild))
  | other (reprStr : String)

/-- A forward-node child: `node.message`, `node.content`, and the string
`Bot.String(node)` would render if the node object itself were sent. -/
inductive NodeChild where
  | mk (message : Option MsgV) (content : Option MsgV) (reprStr : String)
end

/-- `node.message` field of a forward-node child. -/
def NodeChild.message : NodeChild → Option MsgV
  | .mk m _ _ => m

/-- JS truthiness of a message value: `""` is falsy; objects and arrays
(even empty ones) are truthy. -/
def msgTruthy : MsgV → Bool
  | .str s => !s.isEmpty
  | _ => true

/-- The segment loop's accumulators (lines 308–342): `textParts`,
`imageTasks`, and the sends already performed by forward-node recursion,
each in encountered order. -/
structure Collected where
  textParts : List String
  imageTasks : List String
  nodeSends : List Send
deriving Repr, DecidableEq

/-- Lines 344–351: after the loop, one trimmed text send (only if
non-empty), then the collected images one at a time. -/
def flushSends (dst : String) (acc : Collected) : List Send :=
  acc.nodeSends ++
    (let text := jsTrim (String.join acc.textParts)
     if text = "" then [] else [Send.text dst text]) ++
    acc.imageTasks.map (Send.image dst)

/-- Mention resolution (lines 317–320): wxid → display name through the
friend map, falling back to the raw identifier. -/
def atName (fl : List (String × FriendInfo)) (uid : String) : String :=
  match fl.lookup uid with
  | some info => jsOrD (jsOr info.nickname info.user_name) uid
  | none => uid

mutual
/-- `sendMsgSmart(to, msg)` (lines 304–352) as the trace of backend sends
it performs.  `fl` is the registered session's friend map (read only, for
mention resolution).  A plain string is forwarded to `sendText` directly
(line 305), bypassing the trim/empty logic. -/
def sendMsgSmart (fl : List (String × FriendInfo)) (dst : String) :
    MsgV → List Send
  | .str s => [Send.text dst s]
  | .seg g => flushSends dst (collectSeg fl dst g)
  | .arr items => flushSends dst (collectItems fl dst items)

/-- The segment loop (lines 311–342) over the array elements. -/
def collectItems (fl : List (String × FriendInfo)) (dst : String) :
    List MsgItem → Collected
  | [] => ⟨[], [], []⟩
  | .str s :: rest =>
    let r := collectItems fl dst rest
    ⟨s :: r.textParts, r.imageTasks, r.nodeSends⟩
  | .seg g :: rest =>
    let c := collectSeg fl dst g
    let r := collectItems fl dst rest
    ⟨c.textParts ++ r.textParts, c.imageTasks ++ r.imageTasks,
      c.nodeSends ++ r.nodeSends⟩

/-- One loop iteration for a segment object (lines 314–341). -/
def collectSeg (fl : List (String × FriendInfo)) (dst : String) :
    Seg → Collected
  | .text t dt => ⟨[jsOrD (jsOr t dt) ""], [], []⟩
  | .mention qq dqq =>
    let uid := jsOrD (jsOr qq dqq) ""
    ⟨[s!"@{atName fl uid} "], [], []⟩
  | .image f u df du =>
    let file := jsOr (jsOr (jsOr f u) df) du
    if jsTruthy file then ⟨[], [file.getD ""], []⟩ else ⟨[], [], []⟩
  | .record => ⟨["[不支持的媒体]"], [], []⟩
  | .video => ⟨["[不支持的媒体]"], [], []⟩
  | .face => ⟨["[表情]"], [], []⟩
  | .reply => ⟨[], [], []⟩
  | .button => ⟨[], [], []⟩
  | .node none => ⟨[], [], []⟩
  | .node (some children) => ⟨[], [], sendNodeChildren fl dst children⟩
  | .other r => ⟨[r], [], []⟩

/-- Forward-node recursion (lines 332–338): send
`node.message || node.content || node` for each child, sequentially,
preserving child order. -/
def sendNodeChildren (fl : List (String × FriendInfo)) (dst : String) :
    List NodeChild → List Send
  | [] => []
  | n :: rest => sendNodeChild fl dst n ++ sendNodeChildren fl dst rest

/-- One forward-node child (line 336). -/
def sendNodeChild (fl : List (String × FriendInfo)) (dst : String) :
    NodeChild → List Send
  | .mk (some m) c r =>
    if msgTruthy m then sendMsgSmart fl dst m else sendNodeFallback fl dst c r
  | .mk none c r => sendNodeFallback fl dst c r

/-- `node.content || node`: when both fall through, the node object itself
is sent; it has no recognized `type`, so the loop renders it as
`Bot.String(node)` — one text part, which `flushSends` then emits. -/
def sendNodeFallback (fl : List (String × FriendInfo)) (dst : String) :
    Option MsgV → String → List Send
  | some c, r =>
    if msgTruthy c then sendMsgSmart fl dst c else flushSends dst ⟨[r], [], []⟩
  | none, r => flushSends dst ⟨[r], [], []⟩
end

/-!
## Claim-side composer summary

`claimedTextToken` and `claimedImageFile` state, in the outbound-contract
claim's own terms, which text token and which image file each array
element contributes; the composer-ordering theorem compares the source
composer against the trace they predict.
-/

/-- The text token an element contributes to the single text payload
(strings, text and mention segments, and the inline placeholders);
`none` for image segments and dropped segments. -/
def claimedTextToken (fl : List (String × FriendInfo)) :
    MsgItem → Option String
  | .str s => some s
  | .seg (.text t dt) => some (jsOrD (jsOr t dt) "")
  | .seg (.mention qq dqq) =>
    let uid := jsOrD (jsOr qq dqq) ""
    some s!"@{atName fl uid} "
  | .seg .record => some "[不支持的媒体]"
  | .seg .video => some "[不支持的媒体]"
  | .seg .face => some "[表情]"
  | .seg (.other r) => some r
  | _ => none

/-- The image file an element contributes to the post-text image sends
(truthy image sources only); `none` otherwise. -/
def claimedImageFile : MsgItem → Option String
  | .seg (.image f u df du) =>
    if jsTruthy (jsOr (jsOr (jsOr f u) df) du) then
      some ((jsOr (jsOr (jsOr f u) df) du).getD "")
    else none
  | _ => none

/-- The sends a forward-node element performs during the segment loop —
its children's recursive composes, which therefore precede the enclosing
call's own text/image sends; `[]` for every other element. -/
def claimedNodeSends (fl : List (String × FriendInfo)) (dst : String) :
    MsgItem → List Send
  | .seg (.node (some children)) => sendNodeChildren fl dst children
  | _ => []

/-!
## Send primitives (`sendText` / `sendImage`, MimicWX.js lines 355–435)

Network and filesystem effects are oracles collected in `Env`; an
`Except String` result models a thrown exception (`.error e` carries
`err.message`).  Both primitives wrap their whole body in try/catch, so
in the embedding they are total functions returning the parsed response
(when one was obtained) and the log entries written — an exception never
escapes to the caller.
-/

/-- The JSON body of a `POST /send` / `POST /send_image` response. -/
structure SendResp where
  sent : Bool := false
  message : Option String := none
  error : Option String := none
deriving Repr, DecidableEq

/-- One `Bot.makeLog` call: level and message. -/
structure SendLog where
  level : String
  entry : String
deriving Repr, DecidableEq

/-- The I/O oracles the send primitives use.  `b64` stands for
`Buffer.toString("base64")`. -/
structure Env where
  b64 : List Nat → String
  readFile : String → Except String (List Nat)
  httpGet : String → Except String (List Nat)
  postSend : String → String → Except String SendResp
  postSendImage : String → String → String → Except String SendResp

/-- `sendText(to, text)` (lines 355–370): one authenticated POST; a falsy
`sent` field is logged with `result.message || result.error`; a transport
error is caught and logged; either way the call returns normally. -/
def sendText (env : Env) (dst text : String) :
    Option SendResp × List SendLog :=
  match env.postSend dst text with
  | .ok result =>
    if !result.sent then
      let m := jsOrD (jsOr result.message result.error) "undefined"
      (some result, [⟨"warn", "文本发送失败: " ++ m⟩])
    else (some result, [])
  | .error e => (none, [⟨"error", "文本发送错误: " ++ e⟩])

/-- A value passed to `sendImage` as image source. -/
inductive ImgFile where
  | buffer (bytes : List Nat)
  | str (s : String)
  | objWithBuffer (bytes : List Nat) (reprStr : String)
  | other (reprStr : String)
deriving Repr, DecidableEq

/-- `new URL(u).pathname`, for the scheme-prefixed URLs the http branch
receives (authority-less edge cases are not modelled). -/
def urlPathname (u : String) : String :=
  let rest := (u.splitOn "://").getD 1 ""
  let afterHost :=
    match rest.splitOn "/" with
    | [] => ""
    | _ :: tail =>
      if tail.isEmpty then "" else "/" ++ String.intercalate "/" tail
  (((afterHost.splitOn "?").getD 0 "").splitOn "#").getD 0 ""

/-- `path.extname`. -/
def extname (p : String) : String :=
  let base := (p.splitOn "/").getLastD ""
  match base.splitOn "." with
  | [] => ""
  | [_] => ""
  | parts =>
    if jsStartsWith base "." && parts.length = 2 then ""
    else "." ++ parts.getLastD ""

/-- `path.basename`. -/
def basename (p : String) : String :=
  (p.splitOn "/").getLastD ""

/-- How the resolution part of `sendImage` (lines 375–417) ends. -/
inductive ImgResolution where
  | resolved (base64Data : String) (fileName : String)
  | abortWarn (log : SendLog)
  | thrown (e : String)
deriving Repr, DecidableEq

/-- The string branch of image resolution (lines 390–417): `base64://`
data, http(s) download, `file://` path, or a bare local path.  Only the
bare-path branch has an inner try/catch: its read failure warns and
aborts just this image; the other branches let exceptions reach the outer
catch. -/
def resolveImageStr (env : Env) (s : String) : ImgResolution :=
  if jsStartsWith s "base64://" then
    .resolved (s.drop 9) "image.png"
  else if jsStartsWith s "http://" || jsStartsWith s "https://" then
    match env.httpGet s with
    | .ok buf =>
      let ext := extname (urlPathname s)
      .resolved (env.b64 buf) (if ext = "" then "image.png" else "image" ++ ext)
    | .error e => .thrown e
  else if jsStartsWith s "file://" then
    match env.readFile (s.drop 7) with
    | .ok buf => .resolved (env.b64 buf) (basename (s.drop 7))
    | .error e => .thrown e
  else
    match env.readFile s with
    | .ok buf => .resolved (env.b64 buf) (basename s)
    | .error _ => .abortWarn ⟨"warn", "无法读取图片: " ++ s⟩

/-- Image source resolution (lines 375–417): a Buffer or an object with a
Buffer field is encoded directly; anything else is coerced to a string
and handled by `resolveImageStr`. -/
def resolveImage (env : Env) (file : ImgFile) : ImgResolution :=
  match file with
  | .buffer b => .resolved (env.b64 b) "image.png"
  | .objWithBuffer b _ => .resolved (env.b64 b) "image.png"
  | .other r => resolveImageStr env r
  | .str s => resolveImageStr env s

/-- `sendImage(to, file)` (lines 373–435).  The info log's size figure is
omitted from the modelled log entry. -/
def sendImage (env : Env) (dst : String) (file : ImgFile) :
    Option SendResp × List SendLog :=
  match resolveImage env file with
  | .thrown e => (none, [⟨"error", "图片发送错误: " ++ e⟩])
  | .abortWarn lg => (none, [lg])
  | .resolved data name =>
    let infoLog : SendLog := ⟨"info", "发送图片: " ++ name⟩
    match env.postSendImage dst data name with
    | .ok result =>
      if !result.sent then
        let m := jsOrD (jsOr result.message result.error) "undefined"
        (some result, [infoLog, ⟨"warn", "图片发送失败: " ++ m⟩])
      else (some result, [infoLog])
    | .error e => (none, [infoLog, ⟨"error", "图片发送错误: " ++ e⟩])

/-- Executing one composed send against the backend. -/
def runSend (env : Env) : Send → Option SendResp × List SendLog
  | .text dst payload => sendText env dst payload
  | .image dst f => sendImage env dst (ImgFile.str f)

/-- Lines 344–351: composed sends are awaited one after another; each
returns normally, so one send's failure never stops the remainder. -/
def runSends (env : Env) : List Send → List (Option SendResp × List SendLog)
  | [] => []
  | a :: rest => runSend env a :: runSends env rest

/-!
## Reconnect loop (`connectWs`, MimicWX.js lines 78–110)
-/

/-- `RECONNECT_INTERVAL` (line 16), in milliseconds. -/
def RECONNECT_INTERVAL : Nat := 5000

/-- What becomes of one `connectWs` invocation's socket. -/
inductive SocketOutcome where
  | constructFail
  | closed
  | stillOpen
deriving Repr, DecidableEq

/-- The reconnect timers one `connectWs` invocation schedules (lines
81–85, 101–105): exactly one `RECONNECT_INTERVAL` timer per construction
failure or close, none while the socket stays open. -/
def connectWsRetries : SocketOutcome → List Nat
  | .constructFail => [RECONNECT_INTERVAL]
  | .closed => [RECONNECT_INTERVAL]
  | .stillOpen => []

/-- Number of `connectWs` invocations when attempt `k` meets outcome
`outcomes[k]`: every scheduled timer fires a fresh attempt; a run whose
outcomes are exhausted (or that stays open) makes no further attempt. -/
def connectAttempts : List SocketOutcome → Nat
  | [] => 1
  | o :: rest =>
    if (connectWsRetries o).isEmpty then 1 else 1 + connectAttempts rest

/-- All reconnect delays scheduled along a run, in order. -/
def scheduledDelays : List SocketOutcome → List Nat
  | [] => []
  | o :: rest =>
    connectWsRetries o ++
      (if (connectWsRetries o).isEmpty then [] else scheduledDelays rest)

/-!
## Login polling (`initBot`, MimicWX.js lines 115–198)
-/

/-- The JSON body of a `GET /status` response. -/
structure StatusResp where
  status : Option String := none
  version : Option String := none
deriving Repr, DecidableEq

/-- Outcome of one status poll: the fetch / JSON decode threw, or a
status document was obtained. -/
inductive PollOutcome where
  | fetchFail
  | ok (st : StatusResp)
deriving Repr, DecidableEq

/-- The authenticated sentinel check (line 126). -/
def isLoggedIn : PollOutcome → Bool
  | .fetchFail => false
  | .ok st => st.status == some "已登录"

/-- What one `initBot` invocation does. -/
inductive InitAction where
  | retry (delayMs : Nat)
  | register (bot : BotState)
deriving Repr, DecidableEq

/-- The contact snapshot used at registration (lines 136–143): the
fetched list, or the empty list when the contacts fetch threw. -/
def contactsOf : Except String (List Contact) → List Contact
  | .ok l => l
  | .error _ => []

/-- One `initBot` invocation (lines 115–198): a failed fetch (lines
117–124) or a non-authenticated status (lines 126–130) schedules a
10-second retry; the authenticated sentinel loads the contact snapshot
(fetch failure ⇒ empty list, lines 136–143), builds the maps, registers
the session and emits `connect`. -/
def initBotStep (poll : PollOutcome)
    (contacts : Except String (List Contact)) : InitAction :=
  match poll with
  | .fetchFail => .retry 10000
  | .ok st =>
    if st.status ≠ some "已登录" then .retry 10000
    else
      let maps := buildContactMaps (contactsOf contacts)
      .register ⟨maps.1, maps.2⟩

/-- Observable state of the polling loop after `n` poll timers fired. -/
structure InitRunState where
  registered : Option BotState
  connectEvents : Nat
  retries : List Nat
deriving Repr, DecidableEq

/-- The polling loop: `polls k` is the outcome of the `k`-th status
fetch.  After registration the loop stops polling. -/
def initBotRun (polls : Nat → PollOutcome)
    (contacts : Except String (List Contact)) : Nat → InitRunState
  | 0 => ⟨none, 0, []⟩
  | n + 1 =>
    let s := initBotRun polls contacts n
    match s.registered with
    | some _ => s
    | none =>
      match initBotStep (polls n) contacts with
      | .retry d => { s with retries := s.retries ++ [d] }
      | .register b =>
        { s with registered := some b, connectEvents := s.connectEvents + 1 }

/-!
## Helper lemmas
-/

theorem jsOrD_empty (a : Option String) : jsOrD a "" = a.getD "" := by
  cases a with
  | none => rfl
  | some s =>
    simp only [jsOrD, Option.getD_some]
    split
    · next h => exact ((String.isEmpty_iff s).mp h).symm
    · rfl

theorem jsOr_some_empty (b : Option String) : jsOr (some "") b = b := rfl

theorem jsOr_none (b : Option String) : jsOr none b = b := rfl

/-!
## Claim theorems
-/

/-- C8: for every parsed payload and raw fallback, normalization returns
exactly one canonical segment, a text segment whose text equals the
display string; and for an absent/untyped parsed payload or an
unrecognized variant, segment text and display are the raw fallback
verbatim, or the empty string when the fallback is absent. -/
theorem c8_normalize_single_segment :
    (∀ parsed raw, ∃ t,
      (parseMsgContent parsed raw).segments = [⟨"text", t⟩] ∧
      (parseMsgContent parsed raw).display = t) ∧
    (∀ parsed raw,
      (match parsed with
       | none => True
       | some p =>
         match p.type with
         | none => True
         | some ty => ty = "" ∨ ty ∉ recognizedTypes) →
      parseMsgContent parsed raw = mkSingle (some (raw.getD ""))) := by
  constructor
  · intro parsed raw
    cases parsed with
    | none => exact ⟨_, rfl, rfl⟩
    | some p =>
      obtain ⟨ty, d⟩ := p
      cases ty with
      | none => exact ⟨_, rfl, rfl⟩
      | some t =>
        simp only [parseMsgContent]
        split_ifs <;> exact ⟨_, rfl, rfl⟩
  · intro parsed raw h
    cases parsed with
    | none =>
      show parseFallbackRes raw = _
      rw [parseFallbackRes, jsOrD_empty]
    | some p =>
      obtain ⟨ty, d⟩ := p
      cases ty with
      | none =>
        show parseFallbackRes raw = _
        rw [parseFallbackRes, jsOrD_empty]
      | some t =>
        have hfall : parseFallbackRes raw = mkSingle (some (raw.getD "")) := by
          rw [parseFallbackRes, jsOrD_empty]
        rcases h with h | h
        · subst h
          exact hfall
        · simp only [recognizedTypes, List.mem_cons, List.not_mem_nil,
            or_false, not_or] at h
          obtain ⟨h1, h2, h3, h4, h5, h6, h7⟩ := h
          by_cases h0 : t = ""
          · simp only [parseMsgContent, if_pos h0]
            exact hfall
          · simp only [parseMsgContent, if_neg h0, if_neg h1, if_neg h2,
              if_neg h3, if_neg h4, if_neg h5, if_neg h6, if_neg h7]
            exact hfall

/-- Witness for `c8_normalize_single_segment`: an absent parsed payload
with raw content `"hello"` normalizes to one text segment `"hello"` and
display `"hello"`. -/
theorem c8_normalize_single_segment_witness :
    parseMsgContent none (some "hello") = mkSingle (some "hello") :=
  c8_normalize_single_segment.2 none (some "hello") trivial

/-- C7: the Voice display label from `duration_ms`: `≥ 1000` gives the
placeholder with `floor(ms/1000)` seconds (integer division of a positive
number), `0 < ms < 1000` the raw millisecond count, and `ms ≤ 0` or an
absent duration the bare placeholder. -/
theorem c7_voice_label :
    (∀ (d : Option ParsedData) (raw : Option String) (m : Int),
      d.bind ParsedData.duration_ms = some m → 1000 ≤ m →
      parseMsgContent (some ⟨some "Voice", d⟩) raw =
        mkSingle (some s!"[语音 {m / 1000}s]")) ∧
    (∀ (d : Option ParsedData) (raw : Option String) (m : Int),
      d.bind ParsedData.duration_ms = some m → 0 < m → m < 1000 →
      parseMsgContent (some ⟨some "Voice", d⟩) raw =
        mkSingle (some s!"[语音 {m}ms]")) ∧
    (∀ (d : Option ParsedData) (raw : Option String) (m : Int),
      d.bind ParsedData.duration_ms = some m → m ≤ 0 →
      parseMsgContent (some ⟨some "Voice", d⟩) raw =
        mkSingle (some "[语音]")) ∧
    (∀ (d : Option ParsedData) (raw : Option String),
      d.bind ParsedData.duration_ms = none →
      parseMsgContent (some ⟨some "Voice", d⟩) raw =
        mkSingle (some "[语音]")) := by
  have hbase : ∀ (d : Option ParsedData) (raw : Option String),
      parseMsgContent (some ⟨some "Voice", d⟩) raw =
        mkSingle (some (match d.bind ParsedData.duration_ms with
          | some ms =>
            if 1000 ≤ ms then s!"[语音 {ms / 1000}s]"
            else if 0 < ms then s!"[语音 {ms}ms]"
            else "[语音]"
          | none => "[语音]")) := fun d raw => rfl
  have hval : ∀ (d : Option ParsedData) (raw : Option String) (m : Int),
      d.bind ParsedData.duration_ms = some m →
      parseMsgContent (some ⟨some "Voice", d⟩) raw =
        mkSingle (some (if 1000 ≤ m then s!"[语音 {m / 1000}s]"
          else if 0 < m then s!"[语音 {m}ms]" else "[语音]")) := by
    intro d raw m hm
    rw [hbase, hm]
  refine ⟨?_, ?_, ?_, ?_⟩
  · intro d raw m hm h1
    rw [hval d raw m hm, if_pos h1]
  · intro d raw m hm h0 h1
    rw [hval d raw m hm, if_neg (by omega), if_pos h0]
  · intro d raw m hm h0
    rw [hval d raw m hm, if_neg (by omega), if_neg (by omega)]
  · intro d raw hm
    rw [hbase, hm]

/-- Witness for `c7_voice_label` at durations 1500, 500 and 0. -/
theorem c7_voice_label_witness :
    parseMsgContent (some ⟨some "Voice", some ⟨none, some 1500, none, none⟩⟩)
      none = mkSingle (some "[语音 1s]") ∧
    parseMsgContent (some ⟨some "Voice", some ⟨none, some 500, none, none⟩⟩)
      none = mkSingle (some "[语音 500ms]") ∧
    parseMsgContent (some ⟨some "Voice", some ⟨none, some 0, none, none⟩⟩)
      none = mkSingle (some "[语音]") := by
  refine ⟨?_, ?_, ?_⟩
  · exact (c7_voice_label.1 (some ⟨none, some 1500, none, none⟩) none 1500
      rfl (by decide)).trans (by decide)
  · exact (c7_voice_label.2.1 (some ⟨none, some 500, none, none⟩) none 500
      rfl (by decide) (by decide)).trans (by decide)
  · exact c7_voice_label.2.2.1 (some ⟨none, some 0, none, none⟩) none 0
      rfl (by decide)

/-- C10: a `Text` or `System` payload whose parsed text field is present
but empty is not used: segment text and display both fall back to the raw
content, exactly as with an absent text field. -/
theorem c10_empty_parsed_text (d : Option ParsedData) (raw : Option String)
    (ty : String) (hty : ty = "Text" ∨ ty = "System")
    (htext : d.bind ParsedData.text = some "") :
    parseMsgContent (some ⟨some ty, d⟩) raw = mkSingle raw ∧
    parseMsgContent (some ⟨some ty, d⟩) raw =
      parseMsgContent (some ⟨some ty, d.map
        (fun x => ⟨none, x.duration_ms, x.title, x.desc⟩)⟩) raw := by
  have hText : ∀ (e : Option ParsedData) (r : Option String),
      parseMsgContent (some ⟨some "Text", e⟩) r =
        mkSingle (jsOr (e.bind ParsedData.text) r) := fun e r => rfl
  have hSystem : ∀ (e : Option ParsedData) (r : Option String),
      parseMsgContent (some ⟨some "System", e⟩) r =
        mkSingle (jsOr (e.bind ParsedData.text) r) := fun e r => rfl
  cases d with
  | none => simp at htext
  | some dd =>
    simp only [Option.some_bind] at htext
    rcases hty with hty | hty <;> subst hty <;> refine ⟨?_, ?_⟩ <;>
      simp only [hText, hSystem, Option.map_some', Option.some_bind] <;>
      rw [htext] <;> simp only [jsOr_some_empty, jsOr_none]

/-- Witness for `c10_empty_parsed_text`: a `Text` payload with an empty
parsed text field and raw content `"hi"`. -/
theorem c10_empty_parsed_text_witness :
    parseMsgContent (some ⟨some "Text", some ⟨some "", none, none, none⟩⟩)
      (some "hi") = mkSingle (some "hi") :=
  (c10_empty_parsed_text (some ⟨some "", none, none, none⟩) (some "hi")
    "Text" (Or.inl rfl) rfl).1

/-- C5: a `db_message` frame whose self-authored flag is set is discarded
before normalization: no host event is emitted and the contact directory
is left untouched. -/
theorem c5_self_message_discarded (connected : Bool) (bot : Option BotState)
    (nowSec nowMs : Int) (d : DbFrame) (h : d.is_self = true) :
    onDbMessage connected bot nowSec nowMs d = (bot, []) := by
  unfold onDbMessage
  rw [h]
  cases connected <;> simp

/-- Witness for `c5_self_message_discarded`: a connected session, a
populated frame, zero events and an unchanged directory. -/
theorem c5_self_message_discarded_witness :
    onDbMessage true (some ⟨[("alice", ⟨some "alice", none, none, none⟩)], []⟩)
      100 100000
      { is_self := true, chat := some "g@chatroom", talker := some "alice",
        content := some "hi" } =
      (some ⟨[("alice", ⟨some "alice", none, none, none⟩)], []⟩, []) :=
  c5_self_message_discarded true
    (some ⟨[("alice", ⟨some "alice", none, none, none⟩)], []⟩) 100 100000
    { is_self := true, chat := some "g@chatroom", talker := some "alice",
      content := some "hi" } rfl

/-- C3: every socket close and every construction failure schedules
exactly one reconnect attempt after the fixed 5-second interval; `n`
successive closes yield `n + 1` connection attempts, every scheduled
delay equal to `RECONNECT_INTERVAL`. -/
theorem c3_reconnect_attempts :
    connectWsRetries SocketOutcome.closed = [RECONNECT_INTERVAL] ∧
    connectWsRetries SocketOutcome.constructFail = [RECONNECT_INTERVAL] ∧
    RECONNECT_INTERVAL = 5000 ∧
    (∀ n : Nat,
      connectAttempts (List.replicate n SocketOutcome.closed) = n + 1 ∧
      scheduledDelays (List.replicate n SocketOutcome.closed) =
        List.replicate n RECONNECT_INTERVAL) := by
  refine ⟨rfl, rfl, rfl, ?_⟩
  intro n
  induction n with
  | zero => exact ⟨rfl, rfl⟩
  | succ m ih =>
    rw [List.replicate_succ]
    refine ⟨?_, ?_⟩
    · have h1 : connectAttempts
          (SocketOutcome.closed :: List.replicate m SocketOutcome.closed) =
          1 + connectAttempts (List.replicate m SocketOutcome.closed) := rfl
      rw [h1, ih.1]
      omega
    · have h2 : scheduledDelays
          (SocketOutcome.closed :: List.replicate m SocketOutcome.closed) =
          RECONNECT_INTERVAL ::
            scheduledDelays (List.replicate m SocketOutcome.closed) := rfl
      rw [h2, ih.2, List.replicate_succ]

/-- A non-authenticated (or failed) poll schedules a 10-second retry. -/
theorem initBotStep_not_logged (p : PollOutcome)
    (contacts : Except String (List Contact)) (h : isLoggedIn p = false) :
    initBotStep p contacts = .retry 10000 := by
  cases p with
  | fetchFail => rfl
  | ok st =>
    have hne : st.status ≠ some "已登录" := ne_of_beq_false h
    simp only [initBotStep]
    rw [if_pos hne]

/-- An authenticated poll registers the session built from the snapshot. -/
theorem initBotStep_logged (st : StatusResp)
    (contacts : Except String (List Contact))
    (h : st.status = some "已登录") :
    initBotStep (.ok st) contacts =
      .register ⟨(buildContactMaps (contactsOf contacts)).1,
        (buildContactMaps (contactsOf contacts)).2⟩ := by
  simp only [initBotStep]
  rw [if_neg (by simp [h])]

/-- C4: while the status endpoint never reports the authenticated
sentinel (a failed fetch counting the same as a not-logged-in status),
the manager registers nothing and emits no connect event, scheduling one
fixed 10-second retry per poll; the first authenticated poll loads the
contact snapshot, registers the session built from it, and emits exactly
one connect event. -/
theorem c4_login_polling (polls : Nat → PollOutcome)
    (contacts : Except String (List Contact)) :
    (∀ n, (∀ k, k < n → isLoggedIn (polls k) = false) →
      initBotRun polls contacts n = ⟨none, 0, List.replicate n 10000⟩) ∧
    (∀ n, (∀ k, k < n → isLoggedIn (polls k) = false) →
      isLoggedIn (polls n) = true →
      initBotRun polls contacts (n + 1) =
        ⟨some ⟨(buildContactMaps (contactsOf contacts)).1,
          (buildContactMaps (contactsOf contacts)).2⟩, 1,
          List.replicate n 10000⟩) := by
  have main : ∀ n, (∀ k, k < n → isLoggedIn (polls k) = false) →
      initBotRun polls contacts n = ⟨none, 0, List.replicate n 10000⟩ := by
    intro n
    induction n with
    | zero => intro _; rfl
    | succ m ih =>
      intro h
      have hm := ih (fun k hk => h k (Nat.lt_succ_of_lt hk))
      simp only [initBotRun, hm,
        initBotStep_not_logged (polls m) contacts (h m (Nat.lt_succ_self m))]
      rw [← List.replicate_succ']
  refine ⟨main, ?_⟩
  intro n h hlog
  simp only [initBotRun, main n h]
  cases hp : polls n with
  | fetchFail => rw [hp] at hlog; simp [isLoggedIn] at hlog
  | ok st =>
    have hst : st.status = some "已登录" := by
      rw [hp] at hlog
      exact eq_of_beq hlog
    rw [initBotStep_logged st contacts hst]

/-- Witness for `c4_login_polling`: one failed poll, then an
authenticated poll; no registration and one 10-second retry after the
first poll, registration with one connect event after the second. -/
theorem c4_login_polling_witness :
    initBotRun
      (fun k => if k = 0 then .fetchFail else .ok ⟨some "已登录", none⟩)
      (.ok [⟨some "alice", none, some "Alice", none⟩]) 1 =
      ⟨none, 0, [10000]⟩ ∧
    initBotRun
      (fun k => if k = 0 then .fetchFail else .ok ⟨some "已登录", none⟩)
      (.ok [⟨some "alice", none, some "Alice", none⟩]) 2 =
      ⟨some ⟨(buildContactMaps [⟨some "alice", none, some "Alice", none⟩]).1,
        (buildContactMaps [⟨some "alice", none, some "Alice", none⟩]).2⟩, 1,
        [10000]⟩ := by
  constructor
  · exact (c4_login_polling
      (fun k => if k = 0 then .fetchFail else .ok ⟨some "已登录", none⟩)
      (.ok [⟨some "alice", none, some "Alice", none⟩])).1 1
      (by intro k hk; have : k = 0 := by omega
          subst this; rfl)
  · exact (c4_login_polling
      (fun k => if k = 0 then .fetchFail else .ok ⟨some "已登录", none⟩)
      (.ok [⟨some "alice", none, some "Alice", none⟩])).2 1
      (by intro k hk; have : k = 0 := by omega
          subst this; rfl) rfl

theorem jsTruthy_some (s : String) : jsTruthy (some s) = true ↔ s ≠ "" := by
  unfold jsTruthy
  rw [Bool.not_eq_true']
  constructor
  · intro h he
    subst he
    exact absurd h (by decide)
  · intro h
    by_contra hne
    have : s.isEmpty = true := by
      cases he : s.isEmpty with
      | true => rfl
      | false => exact absurd he hne
    exact h ((String.isEmpty_iff s).mp this)

theorem jsTruthy_iff (a : Option String) :
    jsTruthy a = true ↔ ∃ s, a = some s ∧ s ≠ "" := by
  cases a with
  | none => simp [jsTruthy]
  | some s =>
    rw [jsTruthy_some]
    constructor
    · intro h; exact ⟨s, rfl, h⟩
    · rintro ⟨t, ht, h⟩; cases ht; exact h

theorem hasKey_iff {α : Type} (m : List (String × α)) (k : String) :
    hasKey m k = true ↔ ∃ p ∈ m, p.1 = k := by
  simp [hasKey, List.any_eq_true]

theorem hasKey_mapSet {α : Type} (m : List (String × α)) (k k' : String)
    (v : α) : hasKey (mapSet m k v) k' = true ↔
      (hasKey m k' = true ∨ k' = k) := by
  unfold mapSet
  by_cases h : (m.any fun p => p.1 = k) = true
  · rw [if_pos h]
    simp only [hasKey_iff, List.mem_map]
    constructor
    · rintro ⟨p, ⟨q, hq, rfl⟩, hpk⟩
      by_cases hqk : q.1 = k
      · rw [if_pos hqk] at hpk
        exact Or.inr hpk.symm
      · rw [if_neg hqk] at hpk
        exact Or.inl ⟨q, hq, hpk⟩
    · intro hor
      rcases hor with ⟨p, hp, hpk⟩ | he
      · by_cases hpk2 : p.1 = k
        · exact ⟨_, ⟨p, hp, rfl⟩, by rw [if_pos hpk2, ← hpk, hpk2]⟩
        · exact ⟨_, ⟨p, hp, rfl⟩, by rw [if_neg hpk2]; exact hpk⟩
      · subst he
        obtain ⟨p, hp, hpk⟩ := (hasKey_iff m k').mp h
        exact ⟨_, ⟨p, hp, rfl⟩, by rw [if_pos hpk]⟩
  · rw [if_neg h]
    simp only [hasKey_iff, List.mem_append, List.mem_singleton]
    constructor
    · rintro ⟨p, hp | rfl, hpk⟩
      · exact Or.inl ⟨p, hp, hpk⟩
      · exact Or.inr hpk.symm
    · intro hor
      rcases hor with ⟨p, hp, hpk⟩ | he
      · exact ⟨p, Or.inl hp, hpk⟩
      · subst he
        exact ⟨(k', v), Or.inr rfl, rfl⟩

theorem hasKey_contactStep_fl
    (acc : List (String × FriendInfo) × List (String × GroupInfo))
    (c : Contact) (k : String) :
    hasKey (contactStep acc c).1 k = true ↔
      (hasKey acc.1 k = true ∨ (contactId c = some k ∧ k ≠ "" ∧
        jsIncludes k "@chatroom" = false)) := by
  unfold contactStep
  by_cases hg : (jsTruthy (contactId c) &&
      jsIncludes ((contactId c).getD "") "@chatroom") = true
  · rw [if_pos hg]
    constructor
    · exact Or.inl
    · rintro (h | ⟨hid, hk, hmark⟩)
      · exact h
      · rw [hid] at hg
        simp only [Option.getD_some, Bool.and_eq_true] at hg
        exact absurd hg.2 (by rw [hmark]; simp)
  · rw [if_neg hg]
    by_cases hf : jsTruthy (contactId c) = true
    · rw [if_pos hf]
      obtain ⟨s, hs, hsne⟩ := (jsTruthy_iff _).mp hf
      rw [hs] at hg ⊢
      simp only [Option.getD_some]
      rw [hasKey_mapSet]
      have hmarkf : jsIncludes s "@chatroom" = false := by
        cases hm : jsIncludes s "@chatroom" with
        | false => rfl
        | true =>
          exfalso
          apply hg
          rw [Option.getD_some, hm, (jsTruthy_some s).mpr hsne]
          rfl
      constructor
      · rintro (h | rfl)
        · exact Or.inl h
        · exact Or.inr ⟨rfl, hsne, hmarkf⟩
      · rintro (h | ⟨hid, hk, hmark⟩)
        · exact Or.inl h
        · cases Option.some_injective _ hid
          exact Or.inr rfl
    · rw [if_neg hf]
      constructor
      · exact Or.inl
      · rintro (h | ⟨hid, hk, hmark⟩)
        · exact h
        · exact absurd ((jsTruthy_iff _).mpr ⟨k, hid, hk⟩) hf

theorem hasKey_contactStep_gl
    (acc : List (String × FriendInfo) × List (String × GroupInfo))
    (c : Contact) (k : String) :
    hasKey (contactStep acc c).2 k = true ↔
      (hasKey acc.2 k = true ∨ (contactId c = some k ∧ k ≠ "" ∧
        jsIncludes k "@chatroom" = true)) := by
  unfold contactStep
  by_cases hg : (jsTruthy (contactId c) &&
      jsIncludes ((contactId c).getD "") "@chatroom") = true
  · rw [if_pos hg]
    simp only [Bool.and_eq_true] at hg
    obtain ⟨s, hs, hsne⟩ := (jsTruthy_iff _).mp hg.1
    have hmark : jsIncludes s "@chatroom" = true := by
      have := hg.2
      rwa [hs, Option.getD_some] at this
    rw [hs]
    simp only [Option.getD_some]
    rw [hasKey_mapSet]
    constructor
    · rintro (h | rfl)
      · exact Or.inl h
      · exact Or.inr ⟨rfl, hsne, hmark⟩
    · rintro (h | ⟨hid, hk, hm⟩)
      · exact Or.inl h
      · cases Option.some_injective _ hid
        exact Or.inr rfl
  · have step2 : (if jsTruthy (contactId c) = true then
        (mapSet acc.1 ((contactId c).getD "") (contactInfo c), acc.2)
      else acc).2 = acc.2 := by
      split <;> rfl
    rw [if_neg hg, step2]
    constructor
    · exact Or.inl
    · rintro (h | ⟨hid, hk, hmark⟩)
      · exact h
      · exact absurd (by
          rw [hid, Option.getD_some, hmark,
            (jsTruthy_some k).mpr hk]
          rfl) hg

theorem hasKey_foldl_fl (l : List Contact) (k : String) :
    ∀ acc, hasKey (l.foldl contactStep acc).1 k = true ↔
      (hasKey acc.1 k = true ∨ ∃ c ∈ l, contactId c = some k ∧ k ≠ "" ∧
        jsIncludes k "@chatroom" = false) := by
  induction l with
  | nil => intro acc; simp
  | cons c t ih =>
    intro acc
    rw [List.foldl_cons, ih (contactStep acc c), hasKey_contactStep_fl]
    constructor
    · rintro ((h | hc) | ⟨c', hc', hp⟩)
      · exact Or.inl h
      · exact Or.inr ⟨c, List.mem_cons_self c t, hc⟩
      · exact Or.inr ⟨c', List.mem_cons_of_mem _ hc', hp⟩
    · rintro (h | ⟨c', hc', hp⟩)
      · exact Or.inl (Or.inl h)
      · rcases List.mem_cons.mp hc' with rfl | hmem
        · exact Or.inl (Or.inr hp)
        · exact Or.inr ⟨c', hmem, hp⟩

theorem hasKey_foldl_gl (l : List Contact) (k : String) :
    ∀ acc, hasKey (l.foldl contactStep acc).2 k = true ↔
      (hasKey acc.2 k = true ∨ ∃ c ∈ l, contactId c = some k ∧ k ≠ "" ∧
        jsIncludes k "@chatroom" = true) := by
  induction l with
  | nil => intro acc; simp
  | cons c t ih =>
    intro acc
    rw [List.foldl_cons, ih (contactStep acc c), hasKey_contactStep_gl]
    constructor
    · rintro ((h | hc) | ⟨c', hc', hp⟩)
      · exact Or.inl h
      · exact Or.inr ⟨c, List.mem_cons_self c t, hc⟩
      · exact Or.inr ⟨c', List.mem_cons_of_mem _ hc', hp⟩
    · rintro (h | ⟨c', hc', hp⟩)
      · exact Or.inl (Or.inl h)
      · rcases List.mem_cons.mp hc' with rfl | hmem
        · exact Or.inl (Or.inr hp)
        · exact Or.inr ⟨c', hmem, hp⟩

/-- The `data.chat && data.chat.includes("@chatroom")` guard coincides
with plain marker containment (an absent or empty chat id contains no
marker). -/
theorem isGroup_eq (chat : Option String) :
    (jsTruthy chat && jsIncludes (chat.getD "") "@chatroom") =
      jsIncludes (chat.getD "") "@chatroom" := by
  cases chat with
  | none => decide
  | some s =>
    by_cases hs : s = ""
    · subst hs; decide
    · simp only [Option.getD_some]
      rw [(jsTruthy_some s).mpr hs, Bool.true_and]

/-- A connected, non-self `db_message` frame updates the directory and
emits exactly its event. -/
theorem onDbMessage_not_self (bot : Option BotState) (nowSec nowMs : Int)
    (d : DbFrame) (h : d.is_self = false) :
    onDbMessage true bot nowSec nowMs d =
      (bot.map (fun b => updateDirectory b d), [dbEvent nowSec nowMs d]) := by
  unfold onDbMessage
  rw [h]
  simp

/-- C6: group/friend classification is decided solely by `@chatroom`
marker containment.  Snapshot load: the group map's keys all contain the
marker, the friend map's keys never do, every contact with a truthy id
lands in the map its marker test selects, and every key of either map is
the truthy id of some contact (entries without one are skipped).
Inbound: a non-self `db_message` emits exactly one event, typed `group`
precisely when the chat id contains the marker. -/
theorem c6_group_classification :
    (∀ contacts : List Contact,
      (∀ k, hasKey (buildContactMaps contacts).2 k = true →
        jsIncludes k "@chatroom" = true) ∧
      (∀ k, hasKey (buildContactMaps contacts).1 k = true →
        jsIncludes k "@chatroom" = false) ∧
      (∀ c ∈ contacts, ∀ k, contactId c = some k → k ≠ "" →
        (jsIncludes k "@chatroom" = true →
          hasKey (buildContactMaps contacts).2 k = true) ∧
        (jsIncludes k "@chatroom" = false →
          hasKey (buildContactMaps contacts).1 k = true)) ∧
      (∀ k, (hasKey (buildContactMaps contacts).1 k = true ∨
          hasKey (buildContactMaps contacts).2 k = true) →
        ∃ c ∈ contacts, contactId c = some k ∧ k ≠ "")) ∧
    (∀ (bot : Option BotState) (nowSec nowMs : Int) (d : DbFrame),
      d.is_self = false →
      ∃ e, (onDbMessage true bot nowSec nowMs d).2 = [e] ∧
        (e.message_type = "group" ↔
          jsIncludes (d.chat.getD "") "@chatroom" = true)) := by
  constructor
  · intro contacts
    have hfl := fun k => hasKey_foldl_fl contacts k ([], [])
    have hgl := fun k => hasKey_foldl_gl contacts k ([], [])
    refine ⟨?_, ?_, ?_, ?_⟩
    · intro k hk
      rcases (hgl k).mp hk with h | ⟨c, _, _, _, hm⟩
      · exact absurd h (by simp [hasKey])
      · exact hm
    · intro k hk
      rcases (hfl k).mp hk with h | ⟨c, _, _, _, hm⟩
      · exact absurd h (by simp [hasKey])
      · exact hm
    · intro c hc k hid hk
      constructor
      · intro hm
        exact (hgl k).mpr (Or.inr ⟨c, hc, hid, hk, hm⟩)
      · intro hm
        exact (hfl k).mpr (Or.inr ⟨c, hc, hid, hk, hm⟩)
    · intro k hk
      rcases hk with hk | hk
      · rcases (hfl k).mp hk with h | ⟨c, hc, hid, hkne, _⟩
        · exact absurd h (by simp [hasKey])
        · exact ⟨c, hc, hid, hkne⟩
      · rcases (hgl k).mp hk with h | ⟨c, hc, hid, hkne, _⟩
        · exact absurd h (by simp [hasKey])
        · exact ⟨c, hc, hid, hkne⟩
  · intro bot nowSec nowMs d hself
    refine ⟨dbEvent nowSec nowMs d, ?_, ?_⟩
    · rw [onDbMessage_not_self bot nowSec nowMs d hself]
    · have htype : (dbEvent nowSec nowMs d).message_type =
          if (jsTruthy d.chat && jsIncludes (d.chat.getD "") "@chatroom")
          then "group" else "private" := rfl
      rw [htype, isGroup_eq]
      cases hm : jsIncludes (d.chat.getD "") "@chatroom" with
      | true => simp
      | false =>
        rw [if_neg (by simp)]
        constructor
        · intro h; exact absurd h (by decide)
        · intro h; exact absurd h (by decide)

/-- Witness for `c6_group_classification`: a marker-bearing snapshot
entry lands in the group map, and a marker-bearing chat id makes the
inbound event group-typed. -/
theorem c6_group_classification_witness :
    hasKey (buildContactMaps
      [⟨some "g1@chatroom", none, some "Group", none⟩]).2 "g1@chatroom" =
      true ∧
    (∃ e, (onDbMessage true none 0 0
        { is_self := false, chat := some "g@chatroom" }).2 = [e] ∧
      (e.message_type = "group" ↔
        jsIncludes "g@chatroom" "@chatroom" = true)) := by
  constructor
  · exact ((c6_group_classification.1
      [⟨some "g1@chatroom", none, some "Group", none⟩]).2.2.1
      ⟨some "g1@chatroom", none, some "Group", none⟩
      (List.mem_cons_self _ _) "g1@chatroom" rfl (by decide)).1 (by decide)
  · exact c6_group_classification.2 none 0 0
      { is_self := false, chat := some "g@chatroom" } rfl

/-- Every array element contributes exactly its claim-side text token,
image file, and forward-node sends, each list in encountered order. -/
theorem collectItems_eq (fl : List (String × FriendInfo))
    (dst : String) (items : List MsgItem) :
    collectItems fl dst items =
      ⟨items.filterMap (claimedTextToken fl),
        items.filterMap claimedImageFile,
        (items.map (claimedNodeSends fl dst)).flatten⟩ := by
  induction items with
  | nil => rfl
  | cons i rest ih =>
    cases i with
    | str s =>
      simp [collectItems, ih, claimedTextToken, claimedImageFile,
        claimedNodeSends]
    | seg g =>
      cases g with
      | node d =>
        cases d with
        | none =>
          simp [collectItems, collectSeg, ih, claimedTextToken,
            claimedImageFile, claimedNodeSends]
        | some children =>
          simp [collectItems, collectSeg, ih, claimedTextToken,
            claimedImageFile, claimedNodeSends]
      | image f u df du =>
        cases hj : jsTruthy (jsOr (jsOr (jsOr f u) df) du) with
        | true =>
          simp [collectItems, collectSeg, hj, ih, claimedTextToken,
            claimedImageFile, claimedNodeSends]
        | false =>
          simp [collectItems, collectSeg, hj, ih, claimedTextToken,
            claimedImageFile, claimedNodeSends]
      | text t dt =>
        simp [collectItems, collectSeg, ih, claimedTextToken,
          claimedImageFile, claimedNodeSends]
      | mention qq dqq =>
        simp [collectItems, collectSeg, ih, claimedTextToken,
          claimedImageFile, claimedNodeSends]
      | record =>
        simp [collectItems, collectSeg, ih, claimedTextToken,
          claimedImageFile, claimedNodeSends]
      | video =>
        simp [collectItems, collectSeg, ih, claimedTextToken,
          claimedImageFile, claimedNodeSends]
      | face =>
        simp [collectItems, collectSeg, ih, claimedTextToken,
          claimedImageFile, claimedNodeSends]
      | reply =>
        simp [collectItems, collectSeg, ih, claimedTextToken,
          claimedImageFile, claimedNodeSends]
      | button =>
        simp [collectItems, collectSeg, ih, claimedTextToken,
          claimedImageFile, claimedNodeSends]
      | other r =>
        simp [collectItems, collectSeg, ih, claimedTextToken,
          claimedImageFile, claimedNodeSends]

/-- C1 counterexample: the composer does not trim — or withhold when
blank — a plain-string input: it forwards it verbatim as one text send
(`sendMsgSmart`, line 305), so the single text payload is not the trimmed
concatenation the claim demands. -/
theorem c1_counterexample :
    sendMsgSmart [] "r" (.str "  hi  ") = [Send.text "r" "  hi  "] ∧
    jsTrim "  hi  " = "hi" ∧
    sendMsgSmart [] "r" (.str "   ") = [Send.text "r" "   "] ∧
    jsTrim "   " = "" :=
  ⟨rfl, by decide, rfl, by decide⟩

/-- C1 (amended): for every segment array, the composer emits first the
forward-node expansions' sends in encountered order, then exactly one
trimmed text payload — the claim-side text tokens joined in encountered
order — only if non-empty, then the truthy image files one at a time in
encountered order; a single segment composes exactly as its singleton
sequence; a plain-string input is instead forwarded verbatim as a single
text send (untrimmed, sent even when blank); in particular
`[text "a", image X, text "b", image Y]` yields exactly text `"ab"`,
then X, then Y. -/
theorem c1_compose_order :
    (∀ (fl : List (String × FriendInfo)) (dst : String) (g : Seg),
      sendMsgSmart fl dst (.seg g) =
        sendMsgSmart fl dst (.arr [MsgItem.seg g])) ∧
    (∀ (fl : List (String × FriendInfo)) (dst s : String),
      sendMsgSmart fl dst (.str s) = [Send.text dst s]) ∧
    (∀ (fl : List (String × FriendInfo)) (dst : String)
      (items : List MsgItem),
      sendMsgSmart fl dst (.arr items) =
        (items.map (claimedNodeSends fl dst)).flatten ++
        (if jsTrim (String.join (items.filterMap (claimedTextToken fl))) = ""
         then []
         else [Send.text dst
           (jsTrim (String.join (items.filterMap (claimedTextToken fl))))]) ++
        (items.filterMap claimedImageFile).map (Send.image dst)) ∧
    (∀ (fl : List (String × FriendInfo)) (dst : String),
      sendMsgSmart fl dst (.arr [.seg (.text (some "a") none),
        .seg (.image (some "X.png") none none none),
        .seg (.text (some "b") none),
        .seg (.image (some "Y.png") none none none)]) =
        [Send.text dst "ab", Send.image dst "X.png",
          Send.image dst "Y.png"]) := by
  refine ⟨?_, fun fl dst s => rfl, ?_, fun fl dst => rfl⟩
  · intro fl dst g
    show flushSends dst (collectSeg fl dst g) =
      flushSends dst (collectItems fl dst [MsgItem.seg g])
    have hcoll : collectItems fl dst [MsgItem.seg g] =
        collectSeg fl dst g := by
      show (⟨(collectSeg fl dst g).textParts ++ [],
        (collectSeg fl dst g).imageTasks ++ [],
        (collectSeg fl dst g).nodeSends ++ []⟩ : Collected) = _
      simp
    rw [hcoll]
  intro fl dst items
  have harr : sendMsgSmart fl dst (.arr items) =
      flushSends dst (collectItems fl dst items) := rfl
  rw [harr, collectItems_eq fl dst items]
  simp [flushSends]

/-- Witness for `c1_compose_order`: the sequence clause at a mixed array
holding a forward node, a text segment and an image — the node child's
send comes first, then the trimmed text payload, then the image. -/
theorem c1_compose_order_witness :
    sendMsgSmart [] "r" (.arr
      [.seg (.node (some [⟨some (.str "x"), none, "n"⟩])),
        .seg (.text (some " a ") none),
        .seg (.image (some "X.png") none none none)]) =
      [Send.text "r" "x", Send.text "r" "a", Send.image "r" "X.png"] :=
  (c1_compose_order.2.2.1 [] "r"
    [.seg (.node (some [⟨some (.str "x"), none, "n"⟩])),
      .seg (.text (some " a ") none),
      .seg (.image (some "X.png") none none none)]).trans (by decide)

/-- C2: a forward-node segment whose data is an array is expanded by
recursively composing each child's inner message, sequentially and in
child order; in particular a node wrapping `[m1, m2]` performs exactly
the sends of compose on `m1` followed by those of compose on `m2`. -/
theorem c2_forward_node_sequential :
    (∀ (fl : List (String × FriendInfo)) (dst : String)
      (children : List NodeChild),
      sendMsgSmart fl dst (.seg (.node (some children))) =
        sendNodeChildren fl dst children) ∧
    (∀ (fl : List (String × FriendInfo)) (dst : String)
      (children : List NodeChild),
      (∀ n ∈ children, ∃ m, n.message = some m ∧ msgTruthy m = true) →
      sendNodeChildren fl dst children =
        (children.map (fun n =>
          sendMsgSmart fl dst ((NodeChild.message n).getD (.str "")))).flatten) ∧
    (∀ (fl : List (String × FriendInfo)) (dst : String) (m1 m2 : MsgV)
      (r1 r2 : String), msgTruthy m1 = true → msgTruthy m2 = true →
      sendMsgSmart fl dst
        (.seg (.node (some [⟨some m1, none, r1⟩, ⟨some m2, none, r2⟩]))) =
        sendMsgSmart fl dst m1 ++ sendMsgSmart fl dst m2) := by
  have hexp : ∀ (fl : List (String × FriendInfo)) (dst : String)
      (children : List NodeChild),
      sendMsgSmart fl dst (.seg (.node (some children))) =
        sendNodeChildren fl dst children := by
    intro fl dst children
    have h1 : sendMsgSmart fl dst (.seg (.node (some children))) =
        sendNodeChildren fl dst children ++ [] ++ [] := rfl
    rw [h1]
    simp
  refine ⟨hexp, ?_, ?_⟩
  · intro fl dst children h
    induction children with
    | nil => rfl
    | cons n rest ih =>
      obtain ⟨m, hm, hmt⟩ := h n (List.mem_cons_self _ _)
      have hrest := ih (fun j hj => h j (List.mem_cons_of_mem _ hj))
      obtain ⟨mm, mc, mr⟩ := n
      simp only [NodeChild.message] at hm
      subst hm
      rw [List.map_cons, List.flatten_cons, ← hrest]
      show sendNodeChild fl dst ⟨some m, mc, mr⟩ ++ _ = _
      show (if msgTruthy m = true then sendMsgSmart fl dst m
        else sendNodeFallback fl dst mc mr) ++ _ = _
      rw [if_pos hmt]
      rfl
  · intro fl dst m1 m2 r1 r2 h1 h2
    rw [hexp]
    show (sendNodeChild fl dst ⟨some m1, none, r1⟩ ++
      (sendNodeChild fl dst ⟨some m2, none, r2⟩ ++ [])) = _
    show ((if msgTruthy m1 = true then sendMsgSmart fl dst m1
        else sendNodeFallback fl dst none r1) ++
      ((if msgTruthy m2 = true then sendMsgSmart fl dst m2
        else sendNodeFallback fl dst none r2) ++ [])) = _
    rw [if_pos h1, if_pos h2, List.append_nil]

/-- Witness for `c2_forward_node_sequential`: a node wrapping the two
string messages `"m1"`, `"m2"` sends them as two sequential composes. -/
theorem c2_forward_node_sequential_witness :
    sendMsgSmart [] "r" (.seg (.node (some
      [⟨some (.str "m1"), none, "n1"⟩, ⟨some (.str "m2"), none, "n2"⟩]))) =
      [Send.text "r" "m1", Send.text "r" "m2"] :=
  (c2_forward_node_sequential.2.2 [] "r" (.str "m1") (.str "m2")
    "n1" "n2" rfl rfl).trans rfl

/-- C9: the send primitives never throw to their caller: a transport
error is caught and logged; a falsy `sent` field is logged with
`result.message || result.error` while the parsed result is still
returned; an image source string handled as a bare local path whose read
fails aborts only that image's send (warn log, no POST); and composed
sends execute one after another, each returning normally, so a failed
send never stops the remaining sends of the compose call. -/
theorem c9_send_primitives_no_throw :
    (∀ (env : Env) (dst text e : String),
      env.postSend dst text = .error e →
      sendText env dst text = (none, [⟨"error", "文本发送错误: " ++ e⟩])) ∧
    (∀ (env : Env) (dst text : String) (r : SendResp),
      env.postSend dst text = .ok r → r.sent = false →
      sendText env dst text = (some r, [⟨"warn",
        "文本发送失败: " ++ jsOrD (jsOr r.message r.error) "undefined"⟩])) ∧
    (∀ (env : Env) (dst s e : String),
      jsStartsWith s "base64://" = false → jsStartsWith s "http://" = false →
      jsStartsWith s "https://" = false → jsStartsWith s "file://" = false →
      env.readFile s = .error e →
      sendImage env dst (.str s) =
        (none, [⟨"warn", "无法读取图片: " ++ s⟩])) ∧
    (∀ (env : Env) (dst : String) (f : ImgFile) (data name : String)
      (r : SendResp),
      resolveImage env f = .resolved data name →
      env.postSendImage dst data name = .ok r → r.sent = false →
      sendImage env dst f = (some r, [⟨"info", "发送图片: " ++ name⟩,
        ⟨"warn",
          "图片发送失败: " ++ jsOrD (jsOr r.message r.error) "undefined"⟩])) ∧
    (∀ (env : Env) (a : Send) (rest : List Send),
      runSends env (a :: rest) = runSend env a :: runSends env rest) := by
  refine ⟨?_, ?_, ?_, ?_, fun env a rest => rfl⟩
  · intro env dst text e h
    simp [sendText, h]
  · intro env dst text r h hs
    simp [sendText, h, hs]
  · intro env dst s e h1 h2 h3 h4 h5
    simp [sendImage, resolveImage, resolveImageStr, h1, h2, h3, h4, h5]
  · intro env dst f data name r hres hpost hsent
    simp [sendImage, hres, hpost, hsent]

/-- Witness for `c9_send_primitives_no_throw`: concrete environments for
a text transport error, a falsy text `sent`, an unreadable bare image
path followed by a further send that still executes, and a falsy image
`sent`. -/
theorem c9_send_primitives_no_throw_witness :
    sendText ⟨fun _ => "", fun _ => .error "ENOENT", fun _ => .error "net",
        fun _ _ => .error "ECONNREFUSED", fun _ _ _ => .error "x"⟩
      "bob" "hi" = (none, [⟨"error", "文本发送错误: ECONNREFUSED"⟩]) ∧
    sendText ⟨fun _ => "", fun _ => .error "ENOENT", fun _ => .error "net",
        fun _ _ => .ok ⟨false, some "bad", none⟩, fun _ _ _ => .error "x"⟩
      "bob" "hi" = (some ⟨false, some "bad", none⟩,
        [⟨"warn", "文本发送失败: bad"⟩]) ∧
    sendImage ⟨fun _ => "", fun _ => .error "ENOENT", fun _ => .error "net",
        fun _ _ => .error "ECONNREFUSED", fun _ _ _ => .error "x"⟩
      "bob" (.str "pic.png") = (none, [⟨"warn", "无法读取图片: pic.png"⟩]) ∧
    runSends ⟨fun _ => "", fun _ => .error "ENOENT", fun _ => .error "net",
        fun _ _ => .error "ECONNREFUSED", fun _ _ _ => .error "x"⟩
      [Send.image "bob" "pic.png", Send.text "bob" "hi"] =
      [(none, [⟨"warn", "无法读取图片: pic.png"⟩]),
        (none, [⟨"error", "文本发送错误: ECONNREFUSED"⟩])] ∧
    sendImage ⟨fun _ => "QUJD", fun _ => .ok [1, 2, 3], fun _ => .error "net",
        fun _ _ => .error "x", fun _ _ _ => .ok ⟨false, none, some "err4"⟩⟩
      "bob" (.buffer [1]) = (some ⟨false, none, some "err4"⟩,
        [⟨"info", "发送图片: image.png"⟩, ⟨"warn", "图片发送失败: err4"⟩]) := by
  refine ⟨?_, ?_, ?_, ?_, ?_⟩
  · exact c9_send_primitives_no_throw.1 _ "bob" "hi" "ECONNREFUSED" rfl
  · exact (c9_send_primitives_no_throw.2.1 _ "bob" "hi"
      ⟨false, some "bad", none⟩ rfl rfl).trans (by decide)
  · exact c9_send_primitives_no_throw.2.2.1 _ "bob" "pic.png" "ENOENT"
      (by decide) (by decide) (by decide) (by decide) rfl
  · exact (c9_send_primitives_no_throw.2.2.2.2 _
      (Send.image "bob" "pic.png") [Send.text "bob" "hi"]).trans (by decide)
  · exact (c9_send_primitives_no_throw.2.2.2.1
      ⟨fun _ => "QUJD", fun _ => .ok [1, 2, 3], fun _ => .error "net",
        fun _ _ => .error "x", fun _ _ _ => .ok ⟨false, none, some "err4"⟩⟩
      "bob" (.buffer [1]) "QUJD" "image.png" ⟨false, none, some "err4"⟩
      rfl rfl rfl).trans (by decide)

